import Mathlib

/-!
Shallow embedding of `src/src/db.ts` (class `ForzenSqliteDb`, the current
revision of the file) from the forzen-db repository.

Modelling choices:
* The sqlite driver is external to the repository, so its effects are
  represented abstractly: `open` allocates a fresh handle identifier and is
  tracked in `openHandles` (the set of live driver handles, so leaks are
  observable); `close` removes the handle; whether `open` or a statement
  succeeds is supplied as a Boolean oracle argument (`openOk`, `stmtOk`);
  the row set a query would produce is supplied as an oracle list (`qres`),
  and the driver method `Database#get` resolves with the first row of that
  set or with no row, per the sqlite package contract.
* Each `async` method of the class becomes a function
  `DbState → Except DbError α × DbState`; a thrown value becomes
  `Except.error`, and the `try/catch/finally` blocks are translated
  branch by branch (`catch` only logs and rethrows, so it is the identity
  on the error; `finally` runs on both outcomes).
* `execLog` and `runLog` record the SQL text (and positional argument
  array) handed to the wrapper methods `exec` and `run`, so that
  `createTable` and `insert` can be related to the statements they emit.
-/

namespace ForzenDb

/-- A column value as it appears in an entity or a positional argument
array (`INTEGER`, `TEXT` or SQL `NULL`). -/
inductive DbValue where
  | intV (i : Int)
  | textV (s : String)
  | nullV
deriving DecidableEq, Repr

/-- A row materialised by the engine. -/
abbrev Row := List DbValue

/-- The error taxonomy of the wrapper: the driver `open` failed, a
statement failed (the offending SQL is carried for diagnostics, matching
the `console.log` of the failing statement), or the
`if (!this.db) throw 'DATABASE ERROR'` guard fired. -/
inductive DbError where
  | connectionError
  | queryError (sql : String)
  | noConnection
deriving DecidableEq, Repr

/-- The state of one `ForzenSqliteDb` instance together with the driver
world: `db` is the `private db: Database | null` field (the handle id, or
`none` for `null`); `openHandles` lists every driver handle that has been
opened and not yet closed; `nextId` supplies fresh handle ids; `execLog`
and `runLog` record the wrapper-level `exec` and `run` invocations. -/
structure DbState where
  nextId : Nat
  openHandles : List Nat
  db : Option Nat
  execLog : List String
  runLog : List (String × List DbValue)
deriving DecidableEq, Repr

/-- A freshly constructed `ForzenSqliteDb`: `db` is `null`, no handle is
open, nothing has been executed. -/
def initState : DbState :=
  { nextId := 0, openHandles := [], db := none, execLog := [], runLog := [] }

/-- `private async createConnection()`: `this.db = await open({...})`.
A successful `open` yields a fresh live handle which overwrites `this.db`
(the previous handle, if any, is not closed); a failed `open` throws and
leaves the field untouched. -/
def createConnection (openOk : Bool) (s : DbState) :
    Except DbError Unit × DbState :=
  if openOk then
    (Except.ok (),
      { s with
        db := some s.nextId
        openHandles := s.nextId :: s.openHandles
        nextId := s.nextId + 1 })
  else
    (Except.error DbError.connectionError, s)

/-- `async beginSession()`: `await this.createConnection()` — note the call
is unconditional; there is no check whether a connection is already open. -/
def beginSession (openOk : Bool) (s : DbState) :
    Except DbError Unit × DbState :=
  createConnection openOk s

/-- `async endSession()`: `await this.db?.close(); this.db = null`. The
optional chaining makes the close a no-op when `this.db` is `null`. -/
def endSession (s : DbState) : Except DbError Unit × DbState :=
  (Except.ok (),
    { s with
      openHandles :=
        match s.db with
        | some h => s.openHandles.erase h
        | none => s.openHandles
      db := none })

/-- `async session(block)`: `await this.beginSession(); await block();
await this.endSession();` — three sequential awaits with no `try/finally`,
so an error from `beginSession` or from `block` propagates and the
remaining statements do not run. `block` is modelled by its (awaited)
effect on the state. -/
def session (openOk : Bool)
    (block : DbState → Except DbError Unit × DbState) (s : DbState) :
    Except DbError Unit × DbState :=
  match beginSession openOk s with
  | (Except.error e, s1) => (Except.error e, s1)
  | (Except.ok _, s1) =>
    match block s1 with
    | (Except.error e, s2) => (Except.error e, s2)
    | (Except.ok _, s2) => endSession s2

/-- `async exec(sql)`: records `this.db != null` as `isInTransaction`,
opens an implicit connection when outside a session, runs
`this.db?.exec(sql)`, and in `finally` ends the implicit session; `catch`
logs and rethrows. -/
def exec (openOk stmtOk : Bool) (sql : String) (s : DbState) :
    Except DbError Unit × DbState :=
  let s0 : DbState := { s with execLog := sql :: s.execLog }
  let isInTransaction : Bool := s0.db.isSome
  let step1 : Except DbError Unit × DbState :=
    if isInTransaction then (Except.ok (), s0) else createConnection openOk s0
  let tried : Except DbError Unit × DbState :=
    match step1 with
    | (Except.error e, s1) => (Except.error e, s1)
    | (Except.ok _, s1) =>
      match s1.db with
      | none => (Except.ok (), s1)
      | some _ =>
        if stmtOk then (Except.ok (), s1)
        else (Except.error (DbError.queryError sql), s1)
  if isInTransaction then tried else (tried.1, (endSession tried.2).2)

/-- `async run(sql, args)`: same auto-session policy as `exec`, with the
`if (!this.db) throw 'DATABASE ERROR'` guard before `this.db.run(sql, args)`. -/
def run (openOk stmtOk : Bool) (sql : String) (args : List DbValue)
    (s : DbState) : Except DbError Unit × DbState :=
  let s0 : DbState := { s with runLog := (sql, args) :: s.runLog }
  let isInTransaction : Bool := s0.db.isSome
  let step1 : Except DbError Unit × DbState :=
    if isInTransaction then (Except.ok (), s0) else createConnection openOk s0
  let tried : Except DbError Unit × DbState :=
    match step1 with
    | (Except.error e, s1) => (Except.error e, s1)
    | (Except.ok _, s1) =>
      match s1.db with
      | none => (Except.error DbError.noConnection, s1)
      | some _ =>
        if stmtOk then (Except.ok (), s1)
        else (Except.error (DbError.queryError sql), s1)
  if isInTransaction then tried else (tried.1, (endSession tried.2).2)

/-- `async get(sql, args)`: same shape as `run`, returning
`await this.db.get(sql, args)` — the driver resolves with the first row of
the result set `qres`, or with no row when the set is empty. -/
def get (openOk stmtOk : Bool) (sql : String) (args : List DbValue)
    (qres : List Row) (s : DbState) :
    Except DbError (Option Row) × DbState :=
  let isInTransaction : Bool := s.db.isSome
  let step1 : Except DbError Unit × DbState :=
    if isInTransaction then (Except.ok (), s) else createConnection openOk s
  let tried : Except DbError (Option Row) × DbState :=
    match step1 with
    | (Except.error e, s1) => (Except.error e, s1)
    | (Except.ok _, s1) =>
      match s1.db with
      | none => (Except.error DbError.noConnection, s1)
      | some _ =>
        if stmtOk then (Except.ok qres.head?, s1)
        else (Except.error (DbError.queryError sql), s1)
  if isInTransaction then tried else (tried.1, (endSession tried.2).2)

/-- `async all(sql, args)`: same shape as `get`, returning
`await this.db.all(sql, args)` — every row of the result set, in order. -/
def all (openOk stmtOk : Bool) (sql : String) (args : List DbValue)
    (qres : List Row) (s : DbState) :
    Except DbError (List Row) × DbState :=
  let isInTransaction : Bool := s.db.isSome
  let step1 : Except DbError Unit × DbState :=
    if isInTransaction then (Except.ok (), s) else createConnection openOk s
  let tried : Except DbError (List Row) × DbState :=
    match step1 with
    | (Except.error e, s1) => (Except.error e, s1)
    | (Except.ok _, s1) =>
      match s1.db with
      | none => (Except.error DbError.noConnection, s1)
      | some _ =>
        if stmtOk then (Except.ok qres, s1)
        else (Except.error (DbError.queryError sql), s1)
  if isInTransaction then tried else (tried.1, (endSession tried.2).2)

/-- `enum ColumnType { INTEGER = 'INTEGER', TEXT = 'TEXT', REAL = 'REAL' }`. -/
inductive ColumnType where
  | INTEGER
  | TEXT
  | REAL
deriving DecidableEq, Repr

/-- The string value of each `ColumnType` member. -/
def ColumnType.toSql : ColumnType → String
  | ColumnType.INTEGER => "INTEGER"
  | ColumnType.TEXT => "TEXT"
  | ColumnType.REAL => "REAL"

/-- `interface Column`. -/
structure Column where
  isPrimaryKey : Bool
  name : String
  type : ColumnType
  allowNull : Bool
deriving DecidableEq, Repr

/-- `class TableDefinition`: a table name and an ordered column list. -/
structure TableDefinition where
  name : String
  columns : List Column
deriving DecidableEq, Repr

/-- `private makeColumnSqlEntry(column)`: the template-literal
concatenation of name, type, optional `PRIMARY KEY` and optional
`NOT NULL`. -/
def makeColumnSqlEntry (column : Column) : String :=
  column.name ++ " " ++ column.type.toSql ++
    (if column.isPrimaryKey then " PRIMARY KEY" else "") ++
    (if column.allowNull then "" else " NOT NULL")

/-- The SQL string `createTable` builds before handing it to `exec`:
`'CREATE TABLE ' + (allowPreexisting ? 'IF NOT EXISTS ' : '') + name + ' ('`
then the column entries joined with `','`, then `');'`. -/
def createTableSql (table : TableDefinition) (allowPreexisting : Bool) :
    String :=
  "CREATE TABLE " ++ (if allowPreexisting then "IF NOT EXISTS " else "") ++
    table.name ++ " (" ++
    String.intercalate "," (table.columns.map makeColumnSqlEntry) ++ ");"

/-- `async createTable(table, allowPreexisting)`: builds the SQL and
`await this.exec(sql)`. -/
def createTable (openOk stmtOk : Bool) (table : TableDefinition)
    (allowPreexisting : Bool) (s : DbState) :
    Except DbError Unit × DbState :=
  exec openOk stmtOk (createTableSql table allowPreexisting) s

/-- An `Entity`: a record whose own enumerable fields, in enumeration
order, are key/value pairs; one of them is the `tableName` field. -/
abbrev Entity := List (String × DbValue)

/-- The `entity.tableName` field access (a text field of the record). -/
def tableNameOf (entity : Entity) : String :=
  match entity.lookup "tableName" with
  | some (DbValue.textV s) => s
  | _ => ""

/-- `Object.keys(entity).filter((key) => key != 'tableName')`. -/
def insertKeys (entity : Entity) : List String :=
  (entity.map Prod.fst).filter (fun key => key ≠ "tableName")

/-- `keyValueMap[key]`: the value of a field of the entity. -/
def lookupField (entity : Entity) (key : String) : DbValue :=
  (entity.lookup key).getD DbValue.nullV

/-- `keys.map((key) => keyValueMap[key])`: the positional argument array. -/
def insertArgs (entity : Entity) : List DbValue :=
  (insertKeys entity).map (lookupField entity)

/-- The `qMarks` string: one `?` per key, joined with `','`. -/
def qMarks (entity : Entity) : String :=
  String.intercalate "," ((insertKeys entity).map (fun _ => "?"))

/-- The SQL built by `insert`:
``INSERT INTO ${tableName} ( ${keys.join(',')} ) VALUES (${qMarks})``. -/
def insertSql (entity : Entity) : String :=
  "INSERT INTO " ++ tableNameOf entity ++ " ( " ++
    String.intercalate "," (insertKeys entity) ++ " ) VALUES (" ++
    qMarks entity ++ ")"

/-- `async insert(entity)`: derives keys and argument array from the
entity and calls `await this.run(sql, sqlArgumentMap)`. -/
def insert (openOk stmtOk : Bool) (entity : Entity) (s : DbState) :
    Except DbError Unit × DbState :=
  run openOk stmtOk (insertSql entity) (insertArgs entity) s

/-- A column clause written directly from the spec template
`<col> <TYPE> [PRIMARY KEY] [NOT NULL]`: the mandatory words and the
present optional words, joined by single spaces. -/
def specColumnSqlEntry (column : Column) : String :=
  String.intercalate " "
    ([column.name, column.type.toSql] ++
      (if column.isPrimaryKey then ["PRIMARY KEY"] else []) ++
      (if column.allowNull then [] else ["NOT NULL"]))

/-- The spec template
`CREATE TABLE [IF NOT EXISTS] <name> (<col> ... ,...);` with the guard
present exactly when `allowPreexisting` is true and the column clauses in
descriptor order. -/
def specCreateTableSql (table : TableDefinition) (allowPreexisting : Bool) :
    String :=
  (if allowPreexisting then "CREATE TABLE IF NOT EXISTS " else "CREATE TABLE ")
    ++ table.name ++ " (" ++
    String.intercalate "," (table.columns.map specColumnSqlEntry) ++ ");"

/-!
Event-loop model for the `session` timing claim. The single-threaded
cooperative scheduler of the host runtime is modelled just far enough to
talk about ordering: the awaited chain of `session` (begin, the
synchronous portion of `block`, end) runs to completion, and work that
`block` launched without returning its promise — fire-and-forget
asynchronous work waiting on I/O — has its completion delivered only
after that chain has drained. `await block()` awaits only the value
`block()` returns, and a block of the declared type `() => void` returns
no promise, so such launched work is never awaited by `session`.
-/

/-- An observable event: a session began, a session ended, or a unit of
the block's work ran. -/
inductive Ev where
  | beganSession
  | endedSession
  | work (n : Nat)
deriving DecidableEq, Repr

/-- One step of the awaited chain: emit an event synchronously, or launch
asynchronous work without awaiting it (fire-and-forget). -/
inductive Step where
  | emit (e : Ev)
  | launch (w : List Ev)
deriving DecidableEq, Repr

/-- Run the awaited chain: the events it emits, in order, and the bodies
of asynchronous work it launched, in launch order. -/
def runSteps : List Step → List Ev × List (List Ev)
  | [] => ([], [])
  | Step.emit e :: rest =>
    let (evs, bg) := runSteps rest
    (e :: evs, bg)
  | Step.launch w :: rest =>
    let (evs, bg) := runSteps rest
    (evs, w :: bg)

/-- The awaited chain of `session(block)` per the source: `beginSession`,
then the steps of `block` (its returned value — nothing, for a
`() => void` block — is all that is awaited), then `endSession`. -/
def sessionSteps (block : List Step) : List Step :=
  Step.emit Ev.beganSession :: block ++ [Step.emit Ev.endedSession]

/-- The whole-program event order: the awaited chain completes, then the
I/O completions of the work the block launched are delivered. -/
def sessionTrace (block : List Step) : List Ev :=
  let (evs, bg) := runSteps (sessionSteps block)
  evs ++ bg.flatten

/-! Theorems. -/

/-- Helper: `endSession` always leaves the handle field absent. -/
theorem endSession_snd_db (s : DbState) : (endSession s).2.db = none := rfl

/-- C7: `endSession` closes the open connection if one is present and sets
the handle to absent, and it is idempotent: on an already-closed state it
is a no-op, and two consecutive `endSession`s leave the same state (and
result) as a single one. -/
theorem c7_endSession_closes_and_idempotent (s : DbState) :
    (endSession s).1 = Except.ok () ∧
    (endSession s).2.db = none ∧
    (∀ h, s.db = some h → (endSession s).2.openHandles = s.openHandles.erase h) ∧
    (s.db = none → (endSession s).2 = s) ∧
    endSession (endSession s).2 = endSession s := by
  rcases s with ⟨n, oh, db, el, rl⟩
  cases db <;> simp [endSession]

/-- C7 witness: on a state holding handle 0, `endSession` removes it; on
the fresh state it is a no-op. -/
theorem c7_endSession_witness :
    (endSession { initState with db := some 0, openHandles := [0] }).2.openHandles = [] ∧
    (endSession initState).2 = initState := by
  constructor
  · have h := (c7_endSession_closes_and_idempotent
      { initState with db := some 0, openHandles := [0] }).2.2.1 0 rfl
    rw [h]
    decide
  · exact (c7_endSession_closes_and_idempotent initState).2.2.2.1 rfl

/-- C10: the `if (!this.db) throw 'DATABASE ERROR'` guard in `run`, `get`
and `all` is unreachable: whatever the state and driver outcomes, the
result is never the `noConnection` error, because either a session was
already active or the conditional `createConnection` just set the handle
(and if the open failed, control reaches `catch`, not the guard). -/
theorem c10_noConnection_unreachable (openOk stmtOk : Bool) (sql : String)
    (args : List DbValue) (qres : List Row) (s : DbState) :
    (run openOk stmtOk sql args s).1 ≠ Except.error DbError.noConnection ∧
    (get openOk stmtOk sql args qres s).1 ≠ Except.error DbError.noConnection ∧
    (all openOk stmtOk sql args qres s).1 ≠ Except.error DbError.noConnection := by
  rcases s with ⟨n, oh, db, el, rl⟩
  cases db <;> cases openOk <;> cases stmtOk <;>
    simp [run, get, all, createConnection, endSession]

/-- C3: a call to `exec`, `run`, `get` or `all` made while no session is
active (the handle is `none` before the call) leaves the handle `none`
afterwards and restores the set of live driver handles, on every driver
outcome — success, failed open, or failed statement. -/
theorem c3_implicit_calls_leave_closed (openOk stmtOk : Bool) (sql : String)
    (args : List DbValue) (qres : List Row) (s : DbState)
    (hdb : s.db = none) :
    ((exec openOk stmtOk sql s).2.db = none ∧
      (exec openOk stmtOk sql s).2.openHandles = s.openHandles) ∧
    ((run openOk stmtOk sql args s).2.db = none ∧
      (run openOk stmtOk sql args s).2.openHandles = s.openHandles) ∧
    ((get openOk stmtOk sql args qres s).2.db = none ∧
      (get openOk stmtOk sql args qres s).2.openHandles = s.openHandles) ∧
    ((all openOk stmtOk sql args qres s).2.db = none ∧
      (all openOk stmtOk sql args qres s).2.openHandles = s.openHandles) := by
  rcases s with ⟨n, oh, db, el, rl⟩
  cases hdb
  cases openOk <;> cases stmtOk <;>
    simp [exec, run, get, all, createConnection, endSession]

/-- C3 witness: from the fresh state, a failing `run` and a successful
`exec` both leave the handle absent and no live driver handle. -/
theorem c3_implicit_calls_witness :
    (run true false "UPDATE t SET x = 1" [] initState).2.db = none ∧
    (exec true true "SELECT 1" initState).2.openHandles = [] := by
  constructor
  · exact (c3_implicit_calls_leave_closed true false "UPDATE t SET x = 1"
      [] [] initState rfl).2.1.1
  · exact (c3_implicit_calls_leave_closed true true "SELECT 1"
      [] [] initState rfl).1.2

/-- C4: a call to `exec`, `run`, `get` or `all` made while a session is
active (the handle is `some h`) reuses that connection: afterwards the
handle is still `some h`, the live driver handles are unchanged, and no
new handle was allocated — on success and on statement failure alike. -/
theorem c4_session_calls_preserve_handle (openOk stmtOk : Bool)
    (sql : String) (args : List DbValue) (qres : List Row) (s : DbState)
    (h : Nat) (hdb : s.db = some h) :
    ((exec openOk stmtOk sql s).2.db = some h ∧
      (exec openOk stmtOk sql s).2.openHandles = s.openHandles ∧
      (exec openOk stmtOk sql s).2.nextId = s.nextId) ∧
    ((run openOk stmtOk sql args s).2.db = some h ∧
      (run openOk stmtOk sql args s).2.openHandles = s.openHandles ∧
      (run openOk stmtOk sql args s).2.nextId = s.nextId) ∧
    ((get openOk stmtOk sql args qres s).2.db = some h ∧
      (get openOk stmtOk sql args qres s).2.openHandles = s.openHandles ∧
      (get openOk stmtOk sql args qres s).2.nextId = s.nextId) ∧
    ((all openOk stmtOk sql args qres s).2.db = some h ∧
      (all openOk stmtOk sql args qres s).2.openHandles = s.openHandles ∧
      (all openOk stmtOk sql args qres s).2.nextId = s.nextId) := by
  rcases s with ⟨n, oh, db, el, rl⟩
  cases hdb
  cases openOk <;> cases stmtOk <;>
    simp [exec, run, get, all, createConnection, endSession]

/-- C4 witness: inside a session holding handle 5, a successful and a
failing `run` both leave the handle field and the live handles unchanged. -/
theorem c4_session_calls_witness :
    (run true true "DELETE FROM t" []
      { initState with db := some 5, openHandles := [5] }).2.db = some 5 ∧
    (run true false "DELETE FROM t" []
      { initState with db := some 5, openHandles := [5] }).2.openHandles = [5] := by
  constructor
  · exact (c4_session_calls_preserve_handle true true "DELETE FROM t" [] []
      { initState with db := some 5, openHandles := [5] } 5 rfl).2.1.1
  · exact (c4_session_calls_preserve_handle true false "DELETE FROM t" [] []
      { initState with db := some 5, openHandles := [5] } 5 rfl).2.1.2.1

/-- C1 counterexample: `session` has no `try/finally`, so when `block`
raises, `endSession` never runs — starting from the fresh state with a
block that throws, the connection handle is still present (Open) after
`session` returns, refuting "the connection handle is absent (Closed)
after session completes, for every exit path of block". -/
theorem c1_counterexample :
    (session true (fun s => (Except.error (DbError.queryError "boom"), s))
        initState).2.db ≠ none ∧
    (session true (fun s => (Except.error (DbError.queryError "boom"), s))
        initState).2.openHandles = [0] := by
  constructor <;> decide

/-- C1 amended: `session` performs `beginSession`, then `block`, then
`endSession`, and leaves the handle absent — but only when `block` returns
normally; when `block` raises, the error propagates, `endSession` is not
called, and the state is exactly the one `block` left (the connection stays
open). -/
theorem c1_session_cleanup_only_on_success
    (block : DbState → Except DbError Unit × DbState) (s : DbState) :
    (∀ s2, block (beginSession true s).2 = (Except.ok (), s2) →
      session true block s = endSession s2 ∧
        (session true block s).2.db = none) ∧
    (∀ e s2, block (beginSession true s).2 = (Except.error e, s2) →
      session true block s = (Except.error e, s2)) := by
  have hmatch : session true block s =
      (match block (beginSession true s).2 with
        | (Except.error e, s2) => (Except.error e, s2)
        | (Except.ok _, s2) => endSession s2) := rfl
  constructor
  · intro s2 hb
    have hs : session true block s = endSession s2 := by
      rw [hmatch, hb]
    exact ⟨hs, by rw [hs]; exact endSession_snd_db s2⟩
  · intro e s2 hb
    rw [hmatch, hb]

/-- C1 amended witness: a block that returns normally leaves the handle
absent; a block that throws makes `session` propagate its error. -/
theorem c1_session_cleanup_witness :
    (session true (fun s => (Except.ok (), s)) initState).2.db = none ∧
    (session true (fun s => (Except.error DbError.noConnection, s))
        initState).1 = Except.error DbError.noConnection := by
  constructor
  · exact ((c1_session_cleanup_only_on_success
      (fun s => (Except.ok (), s)) initState).1 _ rfl).2
  · rw [(c1_session_cleanup_only_on_success
      (fun s => (Except.error DbError.noConnection, s)) initState).2
      DbError.noConnection _ rfl]

/-- C2 counterexample: `beginSession` calls `createConnection`
unconditionally, so two `beginSession`s from the fresh state with no
intervening `endSession` leave TWO live driver handles — the first one
leaked, the field overwritten with the second — refuting "at most one live
connection handle exists" and "a second beginSession does not create or
leak a second open handle". -/
theorem c2_counterexample :
    ¬ ((beginSession true (beginSession true initState).2).2.openHandles.length ≤ 1) ∧
    (beginSession true (beginSession true initState).2).2.openHandles = [1, 0] ∧
    (beginSession true (beginSession true initState).2).2.db = some 1 := by
  decide

/-- C2 amended: `beginSession` opens a fresh connection unconditionally
(it never checks for an existing one): on success it overwrites the handle
field with the new handle and adds it to the live handles, and any handle
that was open before stays open (so a second `beginSession` without an
intervening `endSession` leaks the first handle and two live handles
exist). -/
theorem c2_beginSession_always_opens (s : DbState) :
    (beginSession true s).2.db = some s.nextId ∧
    (beginSession true s).2.openHandles = s.nextId :: s.openHandles ∧
    (∀ h, h ∈ s.openHandles → h ∈ (beginSession true s).2.openHandles) ∧
    (∀ h, s.db = some h →
      (beginSession true s).2.openHandles.length = s.openHandles.length + 1) := by
  rcases s with ⟨n, oh, db, el, rl⟩
  refine ⟨rfl, rfl, ?_, ?_⟩
  · intro h hh
    exact List.mem_cons_of_mem n hh
  · intro h _
    exact List.length_cons n oh

/-- C2 amended witness: after `beginSession` on a state already holding
open handle 0, both 0 and the fresh handle 1 are live and the field points
at the fresh one. -/
theorem c2_beginSession_witness :
    (0 : Nat) ∈ (beginSession true
      { initState with nextId := 1, db := some 0, openHandles := [0] }).2.openHandles ∧
    (beginSession true
      { initState with nextId := 1, db := some 0, openHandles := [0] }).2.openHandles.length = 2 := by
  constructor
  · exact (c2_beginSession_always_opens
      { initState with nextId := 1, db := some 0, openHandles := [0] }).2.2.1 0
      (by decide)
  · exact (c2_beginSession_always_opens
      { initState with nextId := 1, db := some 0, openHandles := [0] }).2.2.2 0 rfl

/-- C8: `get` resolves with the first row of the result set or with no
row — never more than one — and on an empty result set (zero matching
rows) it resolves with `none` rather than an error; `all` on the same
result set returns every row, of which `get`'s answer is the head. -/
theorem c8_get_at_most_one_row (sql : String) (args : List DbValue)
    (qres : List Row) (s : DbState) :
    (get true true sql args qres s).1 = Except.ok qres.head? ∧
    (get true true sql args ([] : List Row) s).1 = Except.ok (none : Option Row) ∧
    (all true true sql args qres s).1 = Except.ok qres := by
  rcases s with ⟨n, oh, db, el, rl⟩
  cases db <;> simp [get, all, createConnection, endSession]

/-- C9: the session can end before asynchronous work inside the block
completes: there is a block — one that launches asynchronous work without
returning its promise, as the `() => void` type invites — whose whole
program trace shows `endedSession` strictly before the launched work runs. -/
theorem c9_session_ends_before_async_work :
    ∃ block : List Step, Step.launch [Ev.work 0] ∈ block ∧
      sessionTrace block = [Ev.beganSession, Ev.endedSession, Ev.work 0] := by
  exact ⟨[Step.launch [Ev.work 0]], by decide, by decide⟩

/-- Helper: each column clause of the source equals the spec-template
clause. -/
theorem makeColumnSqlEntry_eq_spec (column : Column) :
    makeColumnSqlEntry column = specColumnSqlEntry column := by
  rcases column with ⟨pk, nm, ty, an⟩
  cases pk <;> cases an <;>
    simp [makeColumnSqlEntry, specColumnSqlEntry, String.intercalate,
      String.intercalate.go, String.append_assoc]

/-- Helper: the wrapper `exec` prepends exactly the given SQL to the log
of `exec` invocations, whatever the state and driver outcomes. -/
theorem exec_execLog (openOk stmtOk : Bool) (sql : String) (s : DbState) :
    (exec openOk stmtOk sql s).2.execLog = sql :: s.execLog := by
  rcases s with ⟨n, oh, db, el, rl⟩
  cases db <;> cases openOk <;> cases stmtOk <;>
    simp [exec, createConnection, endSession]

/-- C5: `createTable` hands `exec` exactly the string
`CREATE TABLE [IF NOT EXISTS] <name> (<clauses joined by commas>);` with
the guard present iff `allowPreexisting`, and each clause in descriptor
order reading `<col> <TYPE>` followed by ` PRIMARY KEY` iff the flag is
set and by ` NOT NULL` iff nullability is off — the source-built string
coincides with the spec template on every descriptor. -/
theorem c5_createTable_builds_spec_sql (openOk stmtOk : Bool)
    (table : TableDefinition) (allowPreexisting : Bool) (s : DbState) :
    (createTable openOk stmtOk table allowPreexisting s).2.execLog
      = createTableSql table allowPreexisting :: s.execLog ∧
    createTableSql table allowPreexisting
      = specCreateTableSql table allowPreexisting := by
  constructor
  · exact exec_execLog openOk stmtOk (createTableSql table allowPreexisting) s
  · have hcols : table.columns.map makeColumnSqlEntry
        = table.columns.map specColumnSqlEntry :=
      List.map_congr_left (fun c _ => makeColumnSqlEntry_eq_spec c)
    cases allowPreexisting <;>
      simp [createTableSql, specCreateTableSql, hcols, String.append_assoc]

/-- Helper: the wrapper `run` prepends exactly the given SQL and argument
array to the log of `run` invocations, whatever the state and driver
outcomes. -/
theorem run_runLog (openOk stmtOk : Bool) (sql : String)
    (args : List DbValue) (s : DbState) :
    (run openOk stmtOk sql args s).2.runLog = (sql, args) :: s.runLog := by
  rcases s with ⟨n, oh, db, el, rl⟩
  cases db <;> cases openOk <;> cases stmtOk <;>
    simp [run, createConnection, endSession]

/-- C6: `insert` derives the column names from every field of the entity
except `tableName`, in the entity's enumeration order; the placeholder
list has exactly one `?` per column in the same order; it calls `run` with
that SQL and the field values as the positional argument array; and the
SQL text never contains argument values — entities with the same keys and
the same `tableName` field produce the identical SQL whatever their other
values. -/
theorem c6_insert_parameterized (openOk stmtOk : Bool) (entity : Entity)
    (s : DbState) :
    (insert openOk stmtOk entity s).2.runLog
      = (insertSql entity, insertArgs entity) :: s.runLog ∧
    insertKeys entity
      = (entity.map Prod.fst).filter (fun key => key ≠ "tableName") ∧
    insertArgs entity = (insertKeys entity).map (lookupField entity) ∧
    ((insertKeys entity).map (fun _ => "?")).length
      = (insertKeys entity).length ∧
    (∀ e2 : Entity, e2.map Prod.fst = entity.map Prod.fst →
      e2.lookup "tableName" = entity.lookup "tableName" →
      insertSql e2 = insertSql entity) := by
  refine ⟨run_runLog openOk stmtOk (insertSql entity) (insertArgs entity) s,
    rfl, rfl, List.length_map _ _, ?_⟩
  intro e2 hkeys hname
  have hk : insertKeys e2 = insertKeys entity := by
    simp only [insertKeys, hkeys]
  have hn : tableNameOf e2 = tableNameOf entity := by
    simp only [tableNameOf, hname]
  simp only [insertSql, qMarks, hk, hn]

/-- C6 witness: inserting the README's example entity
`{tableName: my_table_2, foo: 1337, bar: potato}` records the
parameterized INSERT with both values passed positionally, and an entity
with different values yields the same SQL text. -/
theorem c6_insert_witness :
    (insert true true
      [("tableName", DbValue.textV "my_table_2"),
        ("foo", DbValue.intV 1337), ("bar", DbValue.textV "potato")]
      initState).2.runLog
      = [("INSERT INTO my_table_2 ( foo,bar ) VALUES (?,?)",
          [DbValue.intV 1337, DbValue.textV "potato"])] ∧
    insertSql
      [("tableName", DbValue.textV "my_table_2"),
        ("foo", DbValue.intV 0), ("bar", DbValue.nullV)]
      = insertSql
      [("tableName", DbValue.textV "my_table_2"),
        ("foo", DbValue.intV 1337), ("bar", DbValue.textV "potato")] := by
  constructor
  · rw [(c6_insert_parameterized true true
      [("tableName", DbValue.textV "my_table_2"),
        ("foo", DbValue.intV 1337), ("bar", DbValue.textV "potato")]
      initState).1]
    decide
  · exact (c6_insert_parameterized true true
      [("tableName", DbValue.textV "my_table_2"),
        ("foo", DbValue.intV 1337), ("bar", DbValue.textV "potato")]
      initState).2.2.2.2
      [("tableName", DbValue.textV "my_table_2"),
        ("foo", DbValue.intV 0), ("bar", DbValue.nullV)]
      (by decide) (by decide)

end ForzenDb
